import Mathlib

/-!
Verification development for the H2CarnageReport stats engine
(`populate_stats.py`, `STATSRANKS_new.py`).

Embedding conventions:
* Python dictionaries become partial functions (`α → Option β`).
* XP multipliers held as Python floats become exact rationals (`ℚ`);
  Python `int()` truncation becomes `pyInt` (truncation toward zero).
* Python's `str.lower` / `str.strip` (applied here to ASCII player and
  team names) become `strLower` / `strTrim`, character-level maps over
  the string's characters.
* Python's stable `sorted` becomes a stable insertion sort
  (`sortBy`); a stable sort's output is uniquely determined by the key
  order, so this is extensionally the same function.
* The pandas/Excel ingestion layer is out of scope: functions receive
  already-parsed match records, mirroring the dict layout the parser
  produces.
-/

set_option maxRecDepth 10000

/-! ### Small string and list utilities mirroring Python primitives -/

/-- ASCII lower-casing of one character (Python `str.lower` on the ASCII
names this program handles). -/
def lowerChar (c : Char) : Char :=
  if 65 ≤ c.toNat ∧ c.toNat ≤ 90 then Char.ofNat (c.toNat + 32) else c

/-- Python `str.lower` (ASCII fragment). -/
def strLower (s : String) : String := ⟨s.data.map lowerChar⟩

/-- Python whitespace test used by `str.strip`. -/
def isSpaceChar (c : Char) : Bool :=
  c.toNat = 32 || c.toNat = 9 || c.toNat = 10 || c.toNat = 13 ||
    c.toNat = 11 || c.toNat = 12

/-- Python `str.strip`. -/
def strTrim (s : String) : String :=
  ⟨((s.data.dropWhile isSpaceChar).reverse.dropWhile isSpaceChar).reverse⟩

/-- Python `needle in haystack` on strings (contiguous substring). -/
def listContainsSub (needle : List Char) : List Char → Bool
  | [] => needle.isEmpty
  | c :: t => needle.isPrefixOf (c :: t) || listContainsSub needle t

/-- Python `<=` on strings: lexicographic comparison by code point. -/
def charListLe : List Char → List Char → Bool
  | [], _ => true
  | _ :: _, [] => false
  | a :: as, b :: bs =>
    if a.toNat < b.toNat then true
    else if b.toNat < a.toNat then false
    else charListLe as bs

/-- Python `<=` on strings. -/
def strLe (a b : String) : Bool := charListLe a.data b.data

/-- Stable insertion of `x` after every element `y` with `le y x`. -/
def insertSorted (le : α → α → Bool) (x : α) : List α → List α
  | [] => [x]
  | y :: ys => if le y x then y :: insertSorted le x ys else x :: y :: ys

/-- Stable sort (extensionally Python's stable `sorted`). -/
def sortBy (le : α → α → Bool) (l : List α) : List α :=
  l.foldl (fun acc x => insertSorted le x acc) []

/-- Python `frozenset(xs) == frozenset(ys)` for name lists. -/
def listSetEq (xs ys : List String) : Bool :=
  xs.all (fun x => ys.contains x) && ys.all (fun y => xs.contains y)

/-- Python `int()` applied to an exact rational: truncation toward zero. -/
def pyInt (q : ℚ) : ℤ := q.num.tdiv q.den

/-! ### Configuration tables (`xp_config.json` consumers) -/

/-- `DEDICATED_SERVER_NAMES` from `populate_stats.py`. -/
def DEDICATED_SERVER_NAMES : List String :=
  ["statsdedi", "dedi", "dedicated", "server"]

/-- `is_dedicated_server` from `populate_stats.py`: exact match against the
dedicated-server name list, or a name of length ≤ 15 containing `dedi`. -/
def is_dedicated_server (player_name : String) : Bool :=
  let n := strLower (strTrim player_name)
  DEDICATED_SERVER_NAMES.contains n ||
    (listContainsSub "dedi".data n.data && n.length ≤ 15)

/-- `get_loss_factor` from `populate_stats.py`: ranks ≥ 30 pay the full
penalty (factor 1); below that the configured table applies, defaulting
to 1. -/
def get_loss_factor (rank : ℕ) (loss_factors : ℕ → Option ℚ) : ℚ :=
  if 30 ≤ rank then 1 else (loss_factors rank).getD 1

/-- `get_win_factor` from `populate_stats.py`: ranks ≤ 40 receive the full
bonus (factor 1); above that the configured table applies, defaulting
to 1/2. -/
def get_win_factor (rank : ℕ) (win_factors : ℕ → Option ℚ) : ℚ :=
  if rank ≤ 40 then 1 else (win_factors rank).getD (1/2)

/-- The rank levels scanned by `calculate_rank`: 50 down to 1. -/
def rankScanList : List ℕ := (List.range 50).reverse.map (· + 1)

/-- Scanning loop of `calculate_rank` in `populate_stats.py`: the first
level (from the top) whose configured `[min_xp, max_xp]` interval
contains `xp`; 1 if none does. -/
def calcRankAux (xp : ℤ) (th : ℕ → Option (ℤ × ℤ)) : List ℕ → ℕ
  | [] => 1
  | r :: rs =>
    match th r with
    | some (mn, mx) => if mn ≤ xp ∧ xp ≤ mx then r else calcRankAux xp th rs
    | none => calcRankAux xp th rs

/-- `calculate_rank` from `populate_stats.py`. -/
def calculate_rank (xp : ℤ) (rank_thresholds : ℕ → Option (ℤ × ℤ)) : ℕ :=
  calcRankAux xp rank_thresholds rankScanList

namespace STATSRANKS

/-- Scanning loop of `calculate_rank` in `STATSRANKS_new.py`: the first
level (from the top) whose lower bound is ≤ xp; 1 if none. -/
def calcRankAux (xp : ℤ) (th : ℕ → ℤ × ℤ) : List ℕ → ℕ
  | [] => 1
  | r :: rs => if (th r).1 ≤ xp then r else calcRankAux xp th rs

/-- `calculate_rank` from `STATSRANKS_new.py` (only the lower bound of
each threshold interval is consulted; the upper bound is ignored). -/
def calculate_rank (xp : ℤ) (thresholds : ℕ → ℤ × ℤ) : ℕ :=
  calcRankAux xp thresholds rankScanList

end STATSRANKS

-- sanity checks of the embedding on concrete inputs
example : strLower "aBc" = "abc" := by decide
example : strTrim "  a b " = "a b" := by decide
example : is_dedicated_server "StatsDedi" = true := by decide
example : is_dedicated_server "my dedi box" = true := by decide
example : is_dedicated_server "alice" = false := by decide
example : sortBy strLe ["b", "a", "c"] = ["a", "b", "c"] := by decide
example : pyInt ((75 : ℚ) * (9/10)) = 67 := by norm_num [pyInt]; decide
example : calculate_rank 150
    (fun r => if r = 1 then some (0, 99) else if r = 2 then some (100, 199) else none)
    = 2 := by decide
example : calculate_rank 250
    (fun r => if r = 1 then some (0, 99) else if r = 2 then some (100, 199) else none)
    = 1 := by decide
example : STATSRANKS.calculate_rank 250
    (fun r => if r = 1 then (0, 99) else if r = 2 then (100, 199) else (300, 400))
    = 2 := by decide

/-! ### Match records and the outcome resolver -/

/-- One roster entry of a parsed match: in-game name, team field
(`"Red"`/`"Blue"`/other), and numeric score (`score_numeric`). -/
structure Player where
  name : String
  team : String
  score : ℤ
deriving DecidableEq, Repr

/-- A parsed match record: the fields of the per-game dict built by
`parse_excel_file` plus the `playlist` tag attached in `main`
(`none` = unranked). -/
structure Game where
  players : List Player
  playlist : Option String
  startTime : String
  mapName : String
  gameType : String
  variantName : String
  sourceFile : String
deriving DecidableEq, Repr

/-- Membership of the `Red`/`Blue` team of a game
(`player.get('team', '').strip()` comparison in
`determine_winners_losers`). -/
def onTeam (t : String) (p : Player) : Bool := strTrim p.team = t

/-- Aggregate score of one team. -/
def teamScore (g : Game) (t : String) : ℤ :=
  ((g.players.filter (onTeam t)).map Player.score).foldl (· + ·) 0

/-- Roster (names, in list order) of one team. -/
def teamRoster (g : Game) (t : String) : List String :=
  (g.players.filter (onTeam t)).map Player.name

/-- Whether any player carries the given team tag. -/
def teamPresent (g : Game) (t : String) : Bool :=
  g.players.any (onTeam t)

/-- `determine_winners_losers` from `populate_stats.py`: if both teams
are present and totals differ, (winning roster, losing roster);
otherwise (tie, or not exactly two teams) both empty. -/
def determine_winners_losers (g : Game) : List String × List String :=
  if teamPresent g "Red" ∧ teamPresent g "Blue" then
    let rs := teamScore g "Red"
    let bs := teamScore g "Blue"
    if rs = bs then ([], [])
    else if bs < rs then (teamRoster g "Red", teamRoster g "Blue")
    else (teamRoster g "Blue", teamRoster g "Red")
  else ([], [])

/-! ### Series detection -/

/-- `get_team_signature` from `populate_stats.py`: the ordered pair
(red frozenset, blue frozenset) of lower-cased names. A frozenset is
modelled as the name list compared by `listSetEq`; here the team field
is compared without stripping (`p.get('team') == 'Red'`). -/
def get_team_signature (g : Game) : List String × List String :=
  ((g.players.filter (fun p => p.team = "Red")).map (fun p => strLower p.name),
   (g.players.filter (fun p => p.team = "Blue")).map (fun p => strLower p.name))

/-- Equality of two team signatures as Python compares them: tuple of
frozensets, i.e. set equality componentwise in order. -/
def sigEq (a b : List String × List String) : Bool :=
  listSetEq a.1 b.1 && listSetEq a.2 b.2

/-- `get_base_gametype` from `populate_stats.py`. -/
def get_base_gametype (game_type_field : String) : String :=
  if game_type_field = "" then "Unknown"
  else
    let gt := strLower (strTrim game_type_field)
    let mapping : List (String × String) :=
      [("ctf", "CTF"), ("capture the flag", "CTF"),
       ("slayer", "Team Slayer"), ("team slayer", "Team Slayer"),
       ("oddball", "Oddball"), ("assault", "Bomb"), ("bomb", "Bomb"),
       ("koth", "King of the Hill"), ("king of the hill", "King of the Hill"),
       ("king", "King of the Hill"), ("territories", "Territories"),
       ("juggernaut", "Juggernaut")]
    ((mapping.find? (fun kv => kv.1 = gt)).map Prod.snd).getD game_type_field

/-- Which side won a game, as `detect_series` computes it: the team of
the first listed player whose name is among the winners. -/
def gameWinnerSide (g : Game) : Option String :=
  let winners := (determine_winners_losers g).1
  if winners.isEmpty then none
  else
    match g.players.find? (fun p => winners.contains p.name) with
    | none => none
    | some p =>
      if p.team = "Red" then some "Red"
      else if p.team = "Blue" then some "Blue"
      else none

/-- One entry of a series' `games` list. -/
structure SeriesGame where
  timestamp : String
  map : String
  gametype : String
  variantName : String
  winner : Option String
  sourceFile : String
deriving DecidableEq, Repr

/-- A (finalized or still open) series record. `sig` is the internal
`_team_sig` (dropped by the Python code before saving; kept here as a
field since Lean records are immutable). -/
structure Series where
  sig : List String × List String
  seriesCounter : ℕ
  playlist : Option String
  redTeam : List String
  blueTeam : List String
  games : List SeriesGame
  redWins : ℕ
  blueWins : ℕ
  startTime : String
  endTime : String
  winner : String
  seriesType : String
deriving DecidableEq, Repr

/-- The `games` entry `detect_series` builds for one match. -/
def seriesGameEntry (g : Game) : SeriesGame :=
  { timestamp := g.startTime
    map := g.mapName
    gametype := get_base_gametype g.gameType
    variantName := g.variantName
    winner := gameWinnerSide g
    sourceFile := g.sourceFile }

/-- `_finalize_series` from `populate_stats.py`: derive `series_type`
from the game count and the winner from the cumulative win counts. -/
def finalize_series (s : Series) : Series :=
  let n := s.games.length
  let st : String × ℕ :=
    if n ≤ 3 then ("Bo3", 2)
    else if n ≤ 5 then ("Bo5", 3)
    else if n ≤ 7 then ("Bo7", 4)
    else ("Custom", n / 2 + 1)
  let w :=
    if st.2 ≤ s.redWins then "Red"
    else if st.2 ≤ s.blueWins then "Blue"
    else if s.blueWins < s.redWins then "Red"
    else if s.redWins < s.blueWins then "Blue"
    else "Tie"
  { s with seriesType := st.1, winner := w }

/-- The fresh series opened by `detect_series` at a match whose
signature does not extend the open series. -/
def newSeries (dn : String → String) (counter : ℕ) (g : Game) : Series :=
  let gw := gameWinnerSide g
  { sig := get_team_signature g
    seriesCounter := counter
    playlist := g.playlist
    redTeam := sortBy strLe ((g.players.filter (fun p => p.team = "Red")).map (fun p => dn p.name))
    blueTeam := sortBy strLe ((g.players.filter (fun p => p.team = "Blue")).map (fun p => dn p.name))
    games := [seriesGameEntry g]
    redWins := if gw = some "Red" then 1 else 0
    blueWins := if gw = some "Blue" then 1 else 0
    startTime := g.startTime
    endTime := g.startTime
    winner := "Ongoing"
    seriesType := "Custom" }

/-- Loop body of `detect_series`: state is (open series if any,
finalized series so far, series counter). -/
def detectStep (dn : String → String) :
    Option Series × List Series × ℕ → Game → Option Series × List Series × ℕ
  | (cur?, done, counter), g =>
    let gw := gameWinnerSide g
    match cur? with
    | some cur =>
      if sigEq cur.sig (get_team_signature g) then
        (some { cur with
            games := cur.games ++ [seriesGameEntry g]
            endTime := g.startTime
            redWins := cur.redWins + (if gw = some "Red" then 1 else 0)
            blueWins := cur.blueWins + (if gw = some "Blue" then 1 else 0) },
         done, counter)
      else
        (some (newSeries dn (counter + 1) g), done ++ [finalize_series cur], counter + 1)
    | none => (some (newSeries dn (counter + 1) g), done, counter + 1)

/-- `detect_series` from `populate_stats.py`: sort the playlist's games
chronologically (by `Start Time`), group consecutive games with the
same team signature, finalize each group. `dn` is the
`get_display_name_func` parameter. -/
def detect_series (dn : String → String) (games : List Game) : List Series :=
  let sorted_games := sortBy (fun a b => strLe a.startTime b.startTime) games
  let res := sorted_games.foldl (detectStep dn) (none, [], 0)
  match res.1 with
  | some cur => res.2.1 ++ [finalize_series cur]
  | none => res.2.1

/-! ### The XP configuration and the progression ledger (`main`, step 3b) -/

/-- The slice of `xp_config.json` the ranked-game loop consumes. -/
structure XpConfig where
  gameWin : ℤ
  gameLoss : ℤ
  winFactors : ℕ → Option ℚ
  lossFactors : ℕ → Option ℚ
  rankThresholds : ℕ → Option (ℤ × ℤ)

/-- Per (player name, playlist) ledger entry: the fields of
`player_playlist_xp/_rank/_highest_rank/_wins/_losses/_games`. -/
structure PState where
  xp : ℤ
  rank : ℕ
  highest : ℕ
  wins : ℕ
  losses : ℕ
  games : ℕ
deriving DecidableEq, Repr

/-- The state created on a player's first ranked game in a playlist
(xp 0, rank 1, highest rank 1). -/
def PState.init : PState := ⟨0, 1, 1, 0, 0, 0⟩

/-- `int(base * factor)` from the ranked-game loop: the exact product
of the base XP with the rational factor `f`, truncated toward zero
(`(base * f.num) / f.den` as a rational is that product, and `tdiv`
truncates). `applyFactor_eq_pyInt` below checks this against `pyInt`. -/
def applyFactor (base : ℤ) (f : ℚ) : ℤ := (base * f.num).tdiv f.den

/-- Auxiliary: `tdiv` is invariant under a common positive factor. -/
theorem tdiv_natCast_mul_cancel (a : ℤ) (b m : ℕ) (hm : m ≠ 0) :
    (a * (m : ℤ)).tdiv ((b : ℤ) * (m : ℤ)) = a.tdiv (b : ℤ) := by
  cases a with
  | ofNat k =>
    have h1 : ((k : ℤ) * (m : ℤ)) = ((k * m : ℕ) : ℤ) := by push_cast; ring
    have h2 : ((b : ℤ) * (m : ℤ)) = ((b * m : ℕ) : ℤ) := by push_cast; ring
    rw [Int.ofNat_eq_natCast, h1, h2]
    rw [← Int.ofNat_tdiv, ← Int.ofNat_tdiv]
    rw [Nat.mul_div_mul_right _ _ (Nat.pos_of_ne_zero hm)]
  | negSucc k =>
    have h0 : (Int.negSucc k) = -((k + 1 : ℕ) : ℤ) := by
      simp [Int.negSucc_eq]
    rw [h0, Int.neg_mul, Int.neg_tdiv, Int.neg_tdiv]
    have h1 : (((k + 1 : ℕ) : ℤ) * (m : ℤ)) = (((k + 1) * m : ℕ) : ℤ) := by push_cast; ring
    have h2 : ((b : ℤ) * (m : ℤ)) = ((b * m : ℕ) : ℤ) := by push_cast; ring
    rw [h1, h2, ← Int.ofNat_tdiv, ← Int.ofNat_tdiv]
    rw [Nat.mul_div_mul_right _ _ (Nat.pos_of_ne_zero hm)]

/-- Auxiliary: truncation of a built rational agrees with truncating the
un-normalized fraction. -/
theorem pyInt_mkRat (n : ℤ) (d : ℕ) (hd : d ≠ 0) : pyInt (mkRat n d) = n.tdiv d := by
  obtain ⟨n', d', z', c', h⟩ : ∃ n' d' z' c', mkRat n d = (⟨n', d', z', c'⟩ : ℚ) :=
    ⟨(mkRat n d).num, (mkRat n d).den, (mkRat n d).den_nz, (mkRat n d).reduced, rfl⟩
  obtain ⟨m, hm, hn, hdm⟩ := Rat.mkRat_num_den hd h
  subst hn hdm
  rw [h]
  show n'.tdiv d' = (n' * m).tdiv ((d' * m : ℕ) : ℤ)
  have hc : ((d' * m : ℕ) : ℤ) = (d' : ℤ) * (m : ℤ) := by push_cast; ring
  rw [hc]
  have := tdiv_natCast_mul_cancel n' d' m hm
  omega

/-- `applyFactor` is exactly Python `int()` of the exact product
`base * f`. -/
theorem applyFactor_eq_pyInt (b : ℤ) (f : ℚ) :
    applyFactor b f = pyInt ((b : ℚ) * f) := by
  have hmul : (b : ℚ) * f = mkRat ((b : ℚ).num * f.num) ((b : ℚ).den * f.den) :=
    Rat.mul_eq_mkRat _ _
  rw [applyFactor, hmul, Rat.num_intCast, Rat.den_intCast, one_mul,
    pyInt_mkRat _ _ f.den_nz]

/-- One ranked-game transition of the ledger for one participant
(`main`, lines 1551–1589): win/loss/tie bookkeeping with the
rank-before-dependent factor, the loss-side clamp at 0, then rank
recomputation and the highest-rank update. -/
def stepPlayer (cfg : XpConfig) (winners losers : List String)
    (name : String) (s : PState) : PState :=
  let t :=
    if winners.contains name then
      let f := get_win_factor s.rank cfg.winFactors
      let delta := applyFactor cfg.gameWin f
      { s with wins := s.wins + 1, games := s.games + 1, xp := s.xp + delta }
    else if losers.contains name then
      let f := get_loss_factor s.rank cfg.lossFactors
      let delta := applyFactor cfg.gameLoss f
      let x := s.xp + delta
      { s with losses := s.losses + 1, games := s.games + 1,
               xp := if x < 0 then 0 else x }
    else
      { s with games := s.games + 1 }
  let newRank := calculate_rank t.xp cfg.rankThresholds
  { t with rank := newRank,
           highest := if t.highest < newRank then newRank else t.highest }

/-- The in-replay ledger: per player name, per playlist, an entry once
the pair has been touched (mirrors the nested Python dicts). -/
def Ledger := String → String → Option PState

/-- The empty ledger (full-replay start: all dicts empty). -/
def Ledger.empty : Ledger := fun _ _ => none

/-- Write one (name, playlist) slot. -/
def Ledger.update (st : Ledger) (name pl : String) (v : PState) : Ledger :=
  fun n p => if n = name ∧ p = pl then some v else st n p

/-- Fold of the ranked-game loop body over a game's players: dedicated
servers are skipped, every other participant's slot is stepped (lazily
initialized to `PState.init`). -/
def procPlayers (cfg : XpConfig) (winners losers : List String) (pl : String)
    (ps : List Player) (st : Ledger) : Ledger :=
  ps.foldl
    (fun s p =>
      if is_dedicated_server p.name then s
      else
        s.update p.name pl
          (stepPlayer cfg winners losers p.name ((s p.name pl).getD PState.init)))
    st

/-- Process one game of the ranked loop: untagged games are skipped,
otherwise every participant is stepped against the game's outcome. -/
def processGame (cfg : XpConfig) (st : Ledger) (g : Game) : Ledger :=
  match g.playlist with
  | none => st
  | some pl =>
    let wl := determine_winners_losers g
    procPlayers cfg wl.1 wl.2 pl g.players st

/-- Replay a list of ranked games over a starting ledger. -/
def replay (cfg : XpConfig) (st : Ledger) (gs : List Game) : Ledger :=
  gs.foldl (processGame cfg) st

/-! ### Checkpointing (`check_for_changes`, state save and restore) -/

/-- `check_for_changes` from `populate_stats.py`. `oldGames` is the
checkpoint's `games` map (filename → recorded playlist-or-null);
`manual` is `manual_playlists.json`. Returns (needs_full_rebuild,
new_files, changed_playlists). -/
def check_for_changes (stats_files : List String)
    (manual : String → Option String)
    (oldGames : List (String × Option String)) :
    Bool × List String × List (String × (Option String × Option String)) :=
  let present := fun f => (oldGames.map Prod.fst).contains f
  let stored := fun f => ((oldGames.find? (fun kv => kv.1 = f)).map Prod.snd).getD none
  let new_files := stats_files.filter (fun f => !(present f))
  let changed := (stats_files.filter
      (fun f => present f && !(decide (stored f = manual f)))).map
    (fun f => (f, (stored f, manual f)))
  (!changed.isEmpty, new_files, changed)

/-- The names of every (non-dedicated) participant appearing in a game
list, in order of first appearance (the Python `all_player_names` /
`player_to_id` iteration domain). -/
def participantNames (gs : List Game) : List String :=
  (gs.foldl (fun acc g => acc ++ (g.players.map Player.name)) []).eraseDups.filter
    (fun n => !(is_dedicated_server n))

/-- Step-4 consolidation of `main`: the per-user, per-playlist record
summed over every alias name the user resolves to (xp, wins, losses,
games added; highest rank maxed starting from 1; rank recomputed from
the summed xp). Present iff some alias touched the playlist. -/
def conso (cfg : XpConfig) (st : Ledger) (names : List String)
    (p2id : String → String) (u : String) (pl : String) : Option PState :=
  let aliases := names.filter (fun n => p2id n = u)
  if aliases.all (fun n => (st n pl).isNone) then none
  else
    let xp := (aliases.map (fun n => ((st n pl).map PState.xp).getD 0)).foldl (· + ·) 0
    let hi := (aliases.map (fun n => ((st n pl).map PState.highest).getD 1)).foldl max 1
    let w := (aliases.map (fun n => ((st n pl).map PState.wins).getD 0)).foldl (· + ·) 0
    let l := (aliases.map (fun n => ((st n pl).map PState.losses).getD 0)).foldl (· + ·) 0
    let gp := (aliases.map (fun n => ((st n pl).map PState.games).getD 0)).foldl (· + ·) 0
    some { xp := xp, rank := calculate_rank xp cfg.rankThresholds,
           highest := hi, wins := w, losses := l, games := gp }

/-- The playlist tags occurring in a game list: the candidate keys of
the saved per-user `playlists` dicts (a playlist key exists in some
saved dict only if some game of the run carried that tag). -/
def playlistTags (gs : List Game) : List String :=
  (gs.filterMap Game.playlist).eraseDups

/-- The outcome of one incremental invocation of `main`: either the
process dies on an uncaught exception before writing anything, or it
finishes with a consolidated per-user record for the queried user and
playlist. -/
inductive RunResult where
  | crashed : RunResult
  | finished : Option PState → RunResult
deriving DecidableEq, Repr

/-- The incremental-mode restore of the saved `player_state` (`main`,
lines 1437–1455) as the program actually executes it. Checkpointed
names are pre-loaded into `player_to_id` (lines 1325–1328), so the
per-player loop's `continue` at line 1356 skips the block that creates
their `player_playlist_xp` entries; the restore loop then evaluates
`player_playlist_xp[player_name][playlist]` and raises `KeyError` as
soon as some checkpointed user has a non-empty saved `playlists` dict —
every such user has a checkpointed alias name with no entry. A saved
user has a non-empty `playlists` dict exactly when one of its run-1
alias names holds per-playlist state, so the loop crashes iff some
run-1 participant touched some playlist; when every saved `playlists`
dict is empty the loop completes without writing any per-playlist
state. -/
def restorePlayerState (st1 : Ledger) (names1 pls1 : List String) :
    Except Unit Ledger :=
  if names1.any (fun n => pls1.any (fun pl => (st1 n pl).isSome)) then
    Except.error ()
  else Except.ok Ledger.empty

/-- The ranked-game fold of an incremental run: besides dedicated
servers, it skips every player name with no `player_playlist_xp` entry
(the `continue` at the top of step 3b) — in incremental mode exactly
the checkpointed names, which were never initialized. -/
def procPlayersInc (cfg : XpConfig) (skipNames winners losers : List String)
    (pl : String) (ps : List Player) (st : Ledger) : Ledger :=
  ps.foldl
    (fun s p =>
      if is_dedicated_server p.name then s
      else if skipNames.contains p.name then s
      else
        s.update p.name pl
          (stepPlayer cfg winners losers p.name ((s p.name pl).getD PState.init)))
    st

/-- One game of the incremental ranked loop (checkpointed names are
skipped). -/
def processGameInc (cfg : XpConfig) (skipNames : List String) (st : Ledger)
    (g : Game) : Ledger :=
  match g.playlist with
  | none => st
  | some pl =>
    let wl := determine_winners_losers g
    procPlayersInc cfg skipNames wl.1 wl.2 pl g.players st

/-- Replay of the new games in an incremental run. -/
def replayInc (cfg : XpConfig) (skipNames : List String) (st : Ledger)
    (gs : List Game) : Ledger :=
  gs.foldl (processGameInc cfg skipNames) st

/-- A full replay (clean slate) over the whole game list, as consolidated
per-user output. -/
def fullRunConso (cfg : XpConfig) (gs : List Game) (p2id : String → String)
    (u pl : String) : Option PState :=
  conso cfg (replay cfg Ledger.empty gs) (participantNames gs) p2id u pl

/-- An incremental run: checkpoint after the first `k` games, attempt
the restore, then (only if the restore did not crash) replay the games
after `k` with the checkpointed names skipped, and consolidate. -/
def incRunConso (cfg : XpConfig) (gs : List Game) (k : ℕ) (p2id : String → String)
    (u pl : String) : RunResult :=
  let gs1 := gs.take k
  let st1 := replay cfg Ledger.empty gs1
  let names1 := participantNames gs1
  match restorePlayerState st1 names1 (playlistTags gs1) with
  | Except.error _ => RunResult.crashed
  | Except.ok st0 =>
    RunResult.finished
      (conso cfg (replayInc cfg names1 st0 (gs.drop k)) (participantNames gs) p2id u pl)

/-! ### Playlist classification (`determine_playlist` and helpers) -/

/-- Playlist name constants from `populate_stats.py`. -/
def PLAYLIST_MLG_4V4 : String := "MLG 4v4"

/-- Playlist name constant `PLAYLIST_TEAM_HARDCORE`. -/
def PLAYLIST_TEAM_HARDCORE : String := "Team Hardcore"

/-- Playlist name constant `PLAYLIST_DOUBLE_TEAM`. -/
def PLAYLIST_DOUBLE_TEAM : String := "Double Team"

/-- Playlist name constant `PLAYLIST_HEAD_TO_HEAD`. -/
def PLAYLIST_HEAD_TO_HEAD : String := "Head to Head"

/-- `VALID_MLG_4V4_COMBOS` from `populate_stats.py`. -/
def VALID_MLG_4V4_COMBOS : List (String × List String) :=
  [("Midship", ["ctf", "slayer", "oddball", "assault"]),
   ("Beaver Creek", ["ctf", "slayer"]),
   ("Lockout", ["slayer", "oddball"]),
   ("Warlock", ["ctf", "slayer", "oddball"]),
   ("Sanctuary", ["ctf", "slayer"])]

/-- `is_valid_mlg_combo` from `populate_stats.py`: the map must be
listed, and the (alias-normalized, lower-cased) base gametype must
match a valid type for that map by substring in either direction. -/
def is_valid_mlg_combo (map_name base_gametype : String) : Bool :=
  match VALID_MLG_4V4_COMBOS.find? (fun kv => kv.1 = map_name) with
  | none => false
  | some kv =>
    let gl := strLower base_gametype
    let aliases : List (String × String) :=
      [("capture_the_flag", "ctf"), ("king_of_the_hill", "koth"), ("king", "koth")]
    let norm := (((aliases.find? (fun a => a.1 = gl)).map Prod.snd).getD gl)
    kv.2.any (fun vt =>
      listContainsSub vt.data norm.data || listContainsSub norm.data vt.data)

/-- The facts `determine_playlist` reads out of a stats workbook, as a
parsed record (duration in seconds, player count, whether both teams
appear, post-game player names, map and base gametype). -/
structure GameFileInfo where
  filename : String
  durationSeconds : ℕ
  playerCount : ℕ
  isTeam : Bool
  playerNames : List String
  mapName : String
  gameType : String

/-- An `active_matches.json` entry as `determine_playlist` consumes it. -/
structure ActiveMatch where
  playlist : String
  redTeam : List String
  blueTeam : List String

/-- `players_match_active_match` from `populate_stats.py`: at least 75%
of the game's players appear in the active match's rosters (the
comparison `matches >= len(game_players) * 0.75` over exact numbers). -/
def players_match_active_match (game_players : List String)
    (active : Option ActiveMatch) : Bool :=
  match active with
  | none => false
  | some m =>
    let act := (m.redTeam ++ m.blueTeam).map strLower
    if act.isEmpty then false
    else
      let gl := game_players.map strLower
      let hits := (gl.filter (fun p => act.contains p)).length
      3 * game_players.length ≤ 4 * hits

/-- `determine_playlist` from `populate_stats.py`: manual override
first; then the minimum-duration filter; then session (active-match)
matching per playlist shape; otherwise unranked (`none`). -/
def determine_playlist (g : GameFileInfo) (active : Option ActiveMatch)
    (manual : String → Option String) : Option String :=
  match manual g.filename with
  | some pl => some pl
  | none =>
    if g.durationSeconds < 120 then none
    else
      match active with
      | none => none
      | some am =>
        if am.playlist = PLAYLIST_HEAD_TO_HEAD then
          if g.playerCount = 2 ∧ players_match_active_match g.playerNames (some am) then
            some PLAYLIST_HEAD_TO_HEAD
          else none
        else if am.playlist = PLAYLIST_DOUBLE_TEAM then
          if g.playerCount = 4 ∧ g.isTeam ∧ players_match_active_match g.playerNames (some am) then
            some PLAYLIST_DOUBLE_TEAM
          else none
        else if am.playlist = PLAYLIST_MLG_4V4 ∨ am.playlist = PLAYLIST_TEAM_HARDCORE then
          if g.playerCount = 8 ∧ g.isTeam ∧ is_valid_mlg_combo g.mapName g.gameType
              ∧ players_match_active_match g.playerNames (some am) then
            some am.playlist
          else none
        else none

-- sanity checks: classification and series machinery on concrete data
example : is_valid_mlg_combo "Midship" "Slayer" = true := by decide
example : is_valid_mlg_combo "Lockout" "CTF" = false := by decide

/-! ### Shared helper lemmas about two-game playlist streams -/

/-- Helper: a second game whose signature matches the open series is
appended, giving one two-game series. -/
theorem detectPair_append (dn : String → String) (g1 g2 : Game)
    (ht : strLe g1.startTime g2.startTime = true)
    (hsig : sigEq (get_team_signature g1) (get_team_signature g2) = true) :
    (detect_series dn [g1, g2]).map (fun s => s.games.length) = [2] := by
  simp [detect_series, sortBy, insertSorted, ht, detectStep, hsig, newSeries,
    finalize_series, seriesGameEntry]

/-- Helper: a second game whose signature does not match closes the open
series and opens a new one, giving two one-game series. -/
theorem detectPair_break (dn : String → String) (g1 g2 : Game)
    (ht : strLe g1.startTime g2.startTime = true)
    (hsig : sigEq (get_team_signature g1) (get_team_signature g2) = false) :
    (detect_series dn [g1, g2]).map (fun s => s.games.length) = [1, 1] := by
  simp [detect_series, sortBy, insertSorted, ht, detectStep, hsig, newSeries,
    finalize_series, seriesGameEntry]

/-! ### Concrete games used by the series claims -/

/-- A 2v2 game with roster signature A (red a1/a2 beats blue b1/b2). -/
def seriesGameA (st : String) : Game :=
  { players := [⟨"a1", "Red", 25⟩, ⟨"a2", "Red", 25⟩, ⟨"b1", "Blue", 20⟩, ⟨"b2", "Blue", 20⟩],
    playlist := some "MLG 4v4", startTime := st, mapName := "Midship",
    gameType := "Slayer", variantName := "MLG Team Slayer", sourceFile := st ++ ".xlsx" }

/-- A 2v2 game with a different roster signature B. -/
def seriesGameB : Game :=
  { players := [⟨"c1", "Red", 25⟩, ⟨"c2", "Red", 25⟩, ⟨"d1", "Blue", 20⟩, ⟨"d2", "Blue", 20⟩],
    playlist := some "MLG 4v4", startTime := "04", mapName := "Midship",
    gameType := "Slayer", variantName := "MLG Team Slayer", sourceFile := "04.xlsx" }

/-- A 1v1 game: alice on Red, bob on Blue. -/
def swapGame1 : Game :=
  { players := [⟨"alice", "Red", 25⟩, ⟨"bob", "Blue", 20⟩],
    playlist := some "Head to Head", startTime := "01", mapName := "Midship",
    gameType := "Slayer", variantName := "MLG Team Slayer", sourceFile := "01.xlsx" }

/-- The same two players with the Red/Blue assignments swapped. -/
def swapGame2 : Game :=
  { players := [⟨"bob", "Red", 25⟩, ⟨"alice", "Blue", 20⟩],
    playlist := some "Head to Head", startTime := "02", mapName := "Midship",
    gameType := "Slayer", variantName := "MLG Team Slayer", sourceFile := "02.xlsx" }

/-- A 1v1 game written with mixed-case names. -/
def caseGame1 : Game :=
  { players := [⟨"Alice", "Red", 25⟩, ⟨"BOB", "Blue", 20⟩],
    playlist := some "Head to Head", startTime := "01", mapName := "Midship",
    gameType := "Slayer", variantName := "MLG Team Slayer", sourceFile := "01.xlsx" }

/-- The same rosters with different letter case. -/
def caseGame2 : Game :=
  { players := [⟨"aLICE", "Red", 25⟩, ⟨"bob", "Blue", 20⟩],
    playlist := some "Head to Head", startTime := "02", mapName := "Midship",
    gameType := "Slayer", variantName := "MLG Team Slayer", sourceFile := "02.xlsx" }

/-! ### Claim C2 -/

/-- C2 (amended): four chronologically ordered matches whose roster
signatures are A, A, A, B yield exactly two series, the first with 3
games and seriesType Bo3, the second with 1 game and seriesType Bo3
(not Custom: `_finalize_series` types every series of at most 3 games
as Bo3). -/
theorem C2_series_grouping_aaab (dn : String → String) (g1 g2 g3 g4 : Game)
    (h12 : strLe g1.startTime g2.startTime = true)
    (h13 : strLe g1.startTime g3.startTime = true)
    (h23 : strLe g2.startTime g3.startTime = true)
    (h14 : strLe g1.startTime g4.startTime = true)
    (h24 : strLe g2.startTime g4.startTime = true)
    (h34 : strLe g3.startTime g4.startTime = true)
    (hs2 : sigEq (get_team_signature g1) (get_team_signature g2) = true)
    (hs3 : sigEq (get_team_signature g1) (get_team_signature g3) = true)
    (hs4 : sigEq (get_team_signature g1) (get_team_signature g4) = false) :
    (detect_series dn [g1, g2, g3, g4]).map (fun s => (s.games.length, s.seriesType))
      = [(3, "Bo3"), (1, "Bo3")] := by
  simp [detect_series, sortBy, insertSorted, h12, h13, h23, h14, h24, h34,
    detectStep, hs2, hs3, hs4, newSeries, finalize_series, seriesGameEntry]

/-- C2 (counterexample to the claim as stated): on a concrete A, A, A, B
stream the detector does emit two series of 3 and 1 games, but the
second series' type is Bo3, not Custom. -/
theorem C2_counterexample :
    (detect_series id [seriesGameA "01", seriesGameA "02", seriesGameA "03", seriesGameB]).map
        (fun s => (s.games.length, s.seriesType)) = [(3, "Bo3"), (1, "Bo3")] ∧
    (detect_series id [seriesGameA "01", seriesGameA "02", seriesGameA "03", seriesGameB]).map
        (fun s => (s.games.length, s.seriesType)) ≠ [(3, "Bo3"), (1, "Custom")] := by
  constructor
  · decide
  · decide

/-- C2 (witness): the amended theorem applied to the concrete A, A, A, B
stream. -/
theorem C2_series_grouping_aaab_witness :
    (detect_series id [seriesGameA "01", seriesGameA "02", seriesGameA "03", seriesGameB]).map
        (fun s => (s.games.length, s.seriesType)) = [(3, "Bo3"), (1, "Bo3")] :=
  C2_series_grouping_aaab id _ _ _ _ (by decide) (by decide) (by decide) (by decide)
    (by decide) (by decide) (by decide) (by decide) (by decide)

/-! ### Claim C4 -/

/-- C4 (amended): the series signature is the ordered pair
(red name-set, blue name-set): a consecutive game continues the open
series exactly when its red set matches red and its blue set matches
blue; otherwise — including when the two team assignments are swapped —
a new series is opened. -/
theorem C4_signature_ordered_pair (dn : String → String) (g1 g2 : Game)
    (ht : strLe g1.startTime g2.startTime = true) :
    (detect_series dn [g1, g2]).map (fun s => s.games.length)
      = (if sigEq (get_team_signature g1) (get_team_signature g2) then [2] else [1, 1]) := by
  by_cases h : sigEq (get_team_signature g1) (get_team_signature g2) = true
  · rw [if_pos h]
    exact detectPair_append dn g1 g2 ht h
  · rw [if_neg (by simpa using h)]
    exact detectPair_break dn g1 g2 ht (by simpa using h)

/-- C4 (counterexample to the claim as stated): two consecutive matches
whose rosters form the same unordered pair of name-sets with Red and
Blue swapped; the tuple signatures differ, so the detector starts a new
series (two one-game series) instead of appending. -/
theorem C4_counterexample :
    listSetEq (get_team_signature swapGame1).1 (get_team_signature swapGame2).2 = true ∧
    listSetEq (get_team_signature swapGame1).2 (get_team_signature swapGame2).1 = true ∧
    sigEq (get_team_signature swapGame1) (get_team_signature swapGame2) = false ∧
    (detect_series id [swapGame1, swapGame2]).map (fun s => s.games.length) = [1, 1] := by
  refine ⟨by decide, by decide, by decide, by decide⟩

/-- C4 (witness): the amended theorem applied to the swapped-team pair,
where the signature test fails and two series come out. -/
theorem C4_signature_ordered_pair_witness :
    (detect_series id [swapGame1, swapGame2]).map (fun s => s.games.length)
      = (if sigEq (get_team_signature swapGame1) (get_team_signature swapGame2)
          then [2] else [1, 1]) :=
  C4_signature_ordered_pair id swapGame1 swapGame2 (by decide)

/-! ### Claim C10 -/

/-- C10: series continuity is case-insensitive: if two consecutive
matches' Red rosters agree as sets up to ASCII letter case, and
likewise the Blue rosters, the signatures coincide and the second match
is appended — one two-game series. -/
theorem C10_case_insensitive_continuity (dn : String → String) (g1 g2 : Game)
    (ht : strLe g1.startTime g2.startTime = true)
    (hred : listSetEq
        (((g1.players.filter (fun p => p.team = "Red")).map Player.name).map strLower)
        (((g2.players.filter (fun p => p.team = "Red")).map Player.name).map strLower) = true)
    (hblue : listSetEq
        (((g1.players.filter (fun p => p.team = "Blue")).map Player.name).map strLower)
        (((g2.players.filter (fun p => p.team = "Blue")).map Player.name).map strLower) = true) :
    (detect_series dn [g1, g2]).map (fun s => s.games.length) = [2] := by
  have hsig : sigEq (get_team_signature g1) (get_team_signature g2) = true := by
    simp only [List.map_map, Function.comp_def] at hred hblue
    simp [sigEq, get_team_signature, hred, hblue]
  exact detectPair_append dn g1 g2 ht hsig

/-- C10 (witness): the theorem applied to a concrete pair of matches
whose rosters differ only in letter case. -/
theorem C10_case_insensitive_continuity_witness :
    (detect_series id [caseGame1, caseGame2]).map (fun s => s.games.length) = [2] :=
  C10_case_insensitive_continuity id caseGame1 caseGame2 (by decide) (by decide) (by decide)

/-! ### Claim C3 -/

/-- C3 (amended): both factor lookups are total; `get_loss_factor`
defaults to 1 whenever the rank is outside the diminishing region
(rank ≥ 30) or the table has no entry, and `get_win_factor` defaults to
1 below the diminishing region (rank ≤ 40) but to 1/2 — not 1 — for a
missing entry above it; both results lie in (0, 1] provided every
configured entry does. -/
theorem C3_factor_contract (rank : ℕ) (wt lt : ℕ → Option ℚ)
    (hw : ∀ r q, wt r = some q → 0 < q ∧ q ≤ 1)
    (hl : ∀ r q, lt r = some q → 0 < q ∧ q ≤ 1) :
    (0 < get_win_factor rank wt ∧ get_win_factor rank wt ≤ 1) ∧
    (0 < get_loss_factor rank lt ∧ get_loss_factor rank lt ≤ 1) ∧
    (rank ≤ 40 → get_win_factor rank wt = 1) ∧
    (40 < rank → wt rank = none → get_win_factor rank wt = 1/2) ∧
    (30 ≤ rank → get_loss_factor rank lt = 1) ∧
    (rank < 30 → lt rank = none → get_loss_factor rank lt = 1) := by
  refine ⟨?_, ?_, ?_, ?_, ?_, ?_⟩
  · unfold get_win_factor
    split
    · norm_num
    · cases hq : wt rank with
      | none => simp only [hq, Option.getD_none]; norm_num
      | some q => simpa [hq] using hw rank q hq
  · unfold get_loss_factor
    split
    · norm_num
    · cases hq : lt rank with
      | none => simp only [hq, Option.getD_none]; norm_num
      | some q => simpa [hq] using hl rank q hq
  · intro h; simp [get_win_factor, h]
  · intro h hq
    have hn : ¬ (rank ≤ 40) := by omega
    simp [get_win_factor, hn, hq]
  · intro h; simp [get_loss_factor, h]
  · intro h hq
    have hn : ¬ (30 ≤ rank) := by omega
    simp [get_loss_factor, hn, hq]

/-- C3 (counterexample to the claim as stated): rank 45 with an empty
win-factor table is outside the diminishing region's default-1 range —
the code returns 1/2, not the claimed 1.0. -/
theorem C3_counterexample :
    get_win_factor 45 (fun _ => none) = 1/2 ∧ (1/2 : ℚ) ≠ 1 := by
  constructor
  · simp [get_win_factor]
  · norm_num

/-- C3 (witness): the amended contract applied at rank 45 with empty
factor tables. -/
theorem C3_factor_contract_witness :
    (0 < get_win_factor 45 (fun _ => none) ∧ get_win_factor 45 (fun _ => none) ≤ 1) ∧
    (0 < get_loss_factor 45 (fun _ => none) ∧ get_loss_factor 45 (fun _ => none) ≤ 1) ∧
    (45 ≤ 40 → get_win_factor 45 (fun _ => none) = 1) ∧
    (40 < 45 → (fun _ => (none : Option ℚ)) 45 = none → get_win_factor 45 (fun _ => none) = 1/2) ∧
    (30 ≤ 45 → get_loss_factor 45 (fun _ => none) = 1) ∧
    (45 < 30 → (fun _ => (none : Option ℚ)) 45 = none → get_loss_factor 45 (fun _ => none) = 1) :=
  C3_factor_contract 45 (fun _ => none) (fun _ => none)
    (fun _ q h => by simp at h) (fun _ q h => by simp at h)

/-! ### Claim C7 -/

/-- Helper: the scan never returns above a bound dominating the scan
list. -/
theorem STATSRANKS.calcRankAux_le_bound (xp : ℤ) (th : ℕ → ℤ × ℤ) (B : ℕ)
    (hB : 1 ≤ B) : ∀ l : List ℕ, (∀ x ∈ l, x ≤ B) →
    STATSRANKS.calcRankAux xp th l ≤ B := by
  intro l
  induction l with
  | nil => intro _; simpa [STATSRANKS.calcRankAux] using hB
  | cons r rs ih =>
    intro hall
    by_cases hr : (th r).1 ≤ xp
    · simpa [STATSRANKS.calcRankAux, hr] using hall r (by simp)
    · simpa [STATSRANKS.calcRankAux, hr] using ih (fun x hx => hall x (by simp [hx]))

/-- Helper: over a descending scan list of positive levels, the scan is
monotone in xp. -/
theorem STATSRANKS.calcRankAux_mono (th : ℕ → ℤ × ℤ) (xp1 xp2 : ℤ) (h : xp1 ≤ xp2) :
    ∀ l : List ℕ, List.Pairwise (fun a b => b ≤ a) l → (∀ x ∈ l, 1 ≤ x) →
    STATSRANKS.calcRankAux xp1 th l ≤ STATSRANKS.calcRankAux xp2 th l := by
  intro l
  induction l with
  | nil => intro _ _; simp [STATSRANKS.calcRankAux]
  | cons r rs ih =>
    intro hpw hpos
    have hpw' := (List.pairwise_cons.mp hpw).2
    have hdom := (List.pairwise_cons.mp hpw).1
    by_cases h2 : (th r).1 ≤ xp2
    · have e2 : STATSRANKS.calcRankAux xp2 th (r :: rs) = r := by
        rw [STATSRANKS.calcRankAux, if_pos h2]
      rw [e2]
      by_cases h1 : (th r).1 ≤ xp1
      · have e1 : STATSRANKS.calcRankAux xp1 th (r :: rs) = r := by
          rw [STATSRANKS.calcRankAux, if_pos h1]
        rw [e1]
      · have e1 : STATSRANKS.calcRankAux xp1 th (r :: rs)
            = STATSRANKS.calcRankAux xp1 th rs := by
          rw [STATSRANKS.calcRankAux, if_neg h1]
        rw [e1]
        exact STATSRANKS.calcRankAux_le_bound xp1 th r (hpos r (by simp)) rs hdom
    · have h1 : ¬ (th r).1 ≤ xp1 := fun hc => h2 (le_trans hc h)
      have e1 : STATSRANKS.calcRankAux xp1 th (r :: rs)
          = STATSRANKS.calcRankAux xp1 th rs := by
        rw [STATSRANKS.calcRankAux, if_neg h1]
      have e2 : STATSRANKS.calcRankAux xp2 th (r :: rs)
          = STATSRANKS.calcRankAux xp2 th rs := by
        rw [STATSRANKS.calcRankAux, if_neg h2]
      rw [e1, e2]
      exact ih hpw' (fun x hx => hpos x (by simp [hx]))

/-- C7 (amended): `calculate_rank` of `STATSRANKS_new.py`, which tests
only each level's lower bound, is monotone non-decreasing in xp for
every threshold table; the `populate_stats.py` variant additionally
tests the upper bound and is monotone only while xp stays inside the
configured intervals (see the counterexample). -/
theorem C7_lookup_monotone (th : ℕ → ℤ × ℤ) (xp1 xp2 : ℤ) (h : xp1 ≤ xp2) :
    STATSRANKS.calculate_rank xp1 th ≤ STATSRANKS.calculate_rank xp2 th :=
  STATSRANKS.calcRankAux_mono th xp1 xp2 h rankScanList (by decide) (by decide)

/-- A two-level threshold table whose intervals are ordered,
non-overlapping and gap-free on the range they cover. -/
def thresholdsC7 : ℕ → Option (ℤ × ℤ) :=
  fun r => if r = 1 then some (0, 99) else if r = 2 then some (100, 199) else none

/-- C7 (counterexample to the claim as stated): with the two-level
table, `calculate_rank` of `populate_stats.py` assigns rank 2 at xp 150
but falls back to rank 1 at xp 250 (beyond every interval), so the
lookup is not monotone as xp grows without bound. -/
theorem C7_counterexample :
    (150 : ℤ) ≤ 250 ∧
    calculate_rank 150 thresholdsC7 = 2 ∧
    calculate_rank 250 thresholdsC7 = 1 := by
  refine ⟨by decide, by decide, by decide⟩

/-- C7 (witness): monotonicity applied at a concrete table and pair of
xp values. -/
theorem C7_lookup_monotone_witness :
    STATSRANKS.calculate_rank 50 (fun r => ((100 : ℤ) * r, 100 * r + 99))
      ≤ STATSRANKS.calculate_rank 500 (fun r => ((100 : ℤ) * r, 100 * r + 99)) :=
  C7_lookup_monotone (fun r => ((100 : ℤ) * r, 100 * r + 99)) 50 500 (by decide)

/-! ### Claim C5 -/

/-- C5 (amended): `check_for_changes` plans a FULL rebuild iff some file
present in the checkpoint has a recorded playlist different from its
entry in the manual-override map (`manual_playlists.get`, `none` when
not manually assigned) — not from the full classifier — and its new
files are exactly the files absent from the checkpoint. -/
theorem C5_plan_decision (stats_files : List String)
    (manual : String → Option String) (oldGames : List (String × Option String)) :
    ((check_for_changes stats_files manual oldGames).1 = true ↔
      ∃ f ∈ stats_files, (oldGames.map Prod.fst).contains f = true ∧
        ((oldGames.find? (fun kv => kv.1 = f)).map Prod.snd).getD none ≠ manual f) ∧
    (∀ f, f ∈ (check_for_changes stats_files manual oldGames).2.1 ↔
      f ∈ stats_files ∧ (oldGames.map Prod.fst).contains f = false) := by
  constructor
  · simp only [check_for_changes, Bool.not_eq_true', List.isEmpty_eq_false_iff_exists_mem,
      List.mem_map, List.mem_filter]
    constructor
    · rintro ⟨x, ⟨f, ⟨hf, hcond⟩, rfl⟩⟩
      rcases Bool.and_eq_true .. |>.mp hcond with ⟨hp, hne⟩
      refine ⟨f, hf, hp, ?_⟩
      simpa using hne
    · rintro ⟨f, hf, hp, hne⟩
      refine ⟨(f, (((oldGames.find? (fun kv => kv.1 = f)).map Prod.snd).getD none, manual f)),
        ⟨f, ⟨hf, ?_⟩, rfl⟩⟩
      have hpm : f ∈ oldGames.map Prod.fst := by simpa using hp
      rcases List.mem_map.mp hpm with ⟨kv, hkv, hkv1⟩
      have hex : ∃ x, (f, x) ∈ oldGames := ⟨kv.2, by cases hkv1; simpa using hkv⟩
      simp [hp, hne, hex]
  · intro f
    simp [check_for_changes, List.mem_filter]

/-- The parsed facts of a session-classified stats file: a full 4v4 team
game on a valid MLG combo. -/
def infoC5 : GameFileInfo :=
  { filename := "a.xlsx", durationSeconds := 600, playerCount := 8, isTeam := true,
    playerNames := ["p1", "p2", "p3", "p4", "p5", "p6", "p7", "p8"],
    mapName := "Midship", gameType := "Slayer" }

/-- The active Discord session whose rosters match `infoC5`. -/
def activeC5 : ActiveMatch :=
  { playlist := "MLG 4v4", redTeam := ["p1", "p2", "p3", "p4"],
    blueTeam := ["p5", "p6", "p7", "p8"] }

/-- C5 (counterexample to the claim as stated): a file recorded in the
checkpoint as `MLG 4v4` via session matching, with no manual override.
The full classifier still classifies it as `MLG 4v4` (no change), yet
`check_for_changes` compares the recorded value against the manual map
only (`none` here) and demands a FULL rebuild. -/
theorem C5_counterexample :
    (check_for_changes ["a.xlsx"] (fun _ => none) [("a.xlsx", some "MLG 4v4")]).1 = true ∧
    determine_playlist infoC5 (some activeC5) (fun _ => none) = some "MLG 4v4" ∧
    ((([("a.xlsx", (some "MLG 4v4" : Option String))].find?
        (fun kv => kv.1 = "a.xlsx")).map Prod.snd).getD none = some "MLG 4v4") := by
  refine ⟨by decide, by decide, by decide⟩

/-! ### Claim C6 -/

/-- C6 (amended): for a winner, the applied XP delta is the exact
product `configuredWinXP * winFactor(rankBefore)` truncated toward zero
(Python `int()`, not arithmetic rounding); for a loser, the delta is
the truncated `configuredLossXP * lossFactor(rankBefore)` and the
resulting xp is clamped at 0. -/
theorem C6_delta_truncated (cfg : XpConfig) (winners losers : List String)
    (name : String) (s : PState) :
    (winners.contains name = true →
      (stepPlayer cfg winners losers name s).xp
          = s.xp + pyInt ((cfg.gameWin : ℚ) * get_win_factor s.rank cfg.winFactors) ∧
      (stepPlayer cfg winners losers name s).wins = s.wins + 1) ∧
    (winners.contains name = false → losers.contains name = true →
      (stepPlayer cfg winners losers name s).xp
          = max 0 (s.xp + pyInt ((cfg.gameLoss : ℚ) * get_loss_factor s.rank cfg.lossFactors)) ∧
      (stepPlayer cfg winners losers name s).losses = s.losses + 1) := by
  have hmax : ∀ x : ℤ, (if x < 0 then 0 else x) = max 0 x := by
    intro x; split <;> omega
  constructor
  · intro hw
    have hmem : name ∈ winners := by simpa using hw
    rw [← applyFactor_eq_pyInt]
    simp [stepPlayer, hmem]
  · intro hw hl
    have hnw : name ∉ winners := by simpa using hw
    have hml : name ∈ losers := by simpa using hl
    rw [← applyFactor_eq_pyInt]
    simp [stepPlayer, hnw, hml, hmax]

/-- The C6 configuration: win XP 75 with a 0.9 win factor at rank 41. -/
def cfgC6 : XpConfig :=
  { gameWin := 75, gameLoss := -10,
    winFactors := fun r => if r = 41 then some (9/10) else none,
    lossFactors := fun _ => none, rankThresholds := fun _ => none }

/-- A rank-41 ledger state about to receive a win. -/
def sC6 : PState := ⟨1000, 41, 41, 10, 5, 15⟩

/-- C6 (counterexample to the claim as stated): at rank 41 with win
factor 0.9 and win XP 75 the code adds int(67.5) = 67, while the
claimed arithmetic rounding of the exact product would add 68. -/
theorem C6_counterexample :
    (stepPlayer cfgC6 ["w"] [] "w" sC6).xp = 1000 + 67 ∧
    sC6.xp + round ((cfgC6.gameWin : ℚ) * get_win_factor sC6.rank cfgC6.winFactors)
      = 1000 + 68 := by
  constructor
  · rw [show (stepPlayer cfgC6 ["w"] [] "w" sC6).xp
        = sC6.xp + pyInt ((cfgC6.gameWin : ℚ) * get_win_factor sC6.rank cfgC6.winFactors) from
      (C6_delta_truncated cfgC6 ["w"] [] "w" sC6).1 (by decide) |>.1]
    have hf : get_win_factor sC6.rank cfgC6.winFactors = 9/10 := by
      simp [get_win_factor, cfgC6, sC6]
    rw [hf]
    norm_num [pyInt, cfgC6, sC6]
    decide
  · have hf : get_win_factor sC6.rank cfgC6.winFactors = 9/10 := by
      simp [get_win_factor, cfgC6, sC6]
    rw [hf]
    norm_num [round_eq, cfgC6, sC6]

/-- C6 (witness): the win branch of the amended theorem at the concrete
rank-41 state. -/
theorem C6_delta_truncated_witness :
    (["w"].contains "w" = true) ∧
    ((stepPlayer cfgC6 ["w"] [] "w" sC6).xp
        = sC6.xp + pyInt ((cfgC6.gameWin : ℚ) * get_win_factor sC6.rank cfgC6.winFactors) ∧
     (stepPlayer cfgC6 ["w"] [] "w" sC6).wins = sC6.wins + 1) :=
  ⟨by decide, (C6_delta_truncated cfgC6 ["w"] [] "w" sC6).1 (by decide)⟩

/-! ### Claim C9 -/

/-- Helper: players with other names never touch this slot. -/
theorem procPlayers_at_of_absent (cfg : XpConfig) (w l : List String) (pl name : String) :
    ∀ (ps : List Player) (st : Ledger),
    (ps.filter (fun p => p.name = name)).length = 0 →
    procPlayers cfg w l pl ps st name pl = st name pl := by
  intro ps
  induction ps with
  | nil => intro st _; rfl
  | cons p rest ih =>
    intro st h0
    have hpn : ¬ (p.name = name) := by
      intro he
      simp [List.filter_cons, he] at h0
    have hrest : (rest.filter (fun p => p.name = name)).length = 0 := by
      simpa [List.filter_cons, hpn] using h0
    show procPlayers cfg w l pl rest
        (if is_dedicated_server p.name then st
         else st.update p.name pl (stepPlayer cfg w l p.name ((st p.name pl).getD PState.init)))
        name pl = st name pl
    by_cases hd : is_dedicated_server p.name
    · rw [if_pos hd]
      exact ih st hrest
    · rw [if_neg hd]
      rw [ih _ hrest]
      have hpn' : ¬ (name = p.name) := fun h => hpn h.symm
      simp [Ledger.update, hpn']

/-- Helper: a participant listed exactly once ends with exactly one
`stepPlayer` applied to their incoming slot. -/
theorem procPlayers_at_of_single (cfg : XpConfig) (w l : List String) (pl name : String)
    (hnd : is_dedicated_server name = false) :
    ∀ (ps : List Player) (st : Ledger),
    (ps.filter (fun p => p.name = name)).length = 1 →
    procPlayers cfg w l pl ps st name pl
      = some (stepPlayer cfg w l name ((st name pl).getD PState.init)) := by
  intro ps
  induction ps with
  | nil => intro st h; simp at h
  | cons p rest ih =>
    intro st h1
    by_cases hpn : p.name = name
    · have hrest : (rest.filter (fun p => p.name = name)).length = 0 := by
        simpa [List.filter_cons, hpn] using h1
      show procPlayers cfg w l pl rest
          (if is_dedicated_server p.name then st
           else st.update p.name pl (stepPlayer cfg w l p.name ((st p.name pl).getD PState.init)))
          name pl = _
      rw [if_neg (by rw [hpn, hnd]; simp)]
      rw [procPlayers_at_of_absent cfg w l pl name rest _ hrest]
      simp [Ledger.update, hpn]
    · have hrest : (rest.filter (fun p => p.name = name)).length = 1 := by
        simpa [List.filter_cons, hpn] using h1
      show procPlayers cfg w l pl rest
          (if is_dedicated_server p.name then st
           else st.update p.name pl (stepPlayer cfg w l p.name ((st p.name pl).getD PState.init)))
          name pl = _
      by_cases hd : is_dedicated_server p.name
      · rw [if_pos hd]
        exact ih st hrest
      · rw [if_neg hd]
        rw [ih _ hrest]
        have hpn' : ¬ (name = p.name) := fun h => hpn h.symm
        simp [Ledger.update, hpn']

/-- C9 (amended): a tie — equal Red/Blue team totals, or Red and Blue
not both present — yields empty winner and loser rosters, and
processing the match as a ranked game adds 1 to the participant's
gamesPlayed while leaving xp, wins and losses unchanged. (Extra teams
beyond Red and Blue are ignored by the resolver and do not make a match
a tie: see the counterexample.) -/
theorem C9_tie_frame (cfg : XpConfig) (st : Ledger) (g : Game) (pl name : String)
    (hpl : g.playlist = some pl)
    (htie : teamScore g "Red" = teamScore g "Blue"
      ∨ ¬(teamPresent g "Red" = true ∧ teamPresent g "Blue" = true))
    (hocc : (g.players.filter (fun p => p.name = name)).length = 1)
    (hnd : is_dedicated_server name = false) :
    determine_winners_losers g = ([], []) ∧
    (((processGame cfg st g) name pl).getD PState.init).games
        = ((st name pl).getD PState.init).games + 1 ∧
    (((processGame cfg st g) name pl).getD PState.init).xp
        = ((st name pl).getD PState.init).xp ∧
    (((processGame cfg st g) name pl).getD PState.init).wins
        = ((st name pl).getD PState.init).wins ∧
    (((processGame cfg st g) name pl).getD PState.init).losses
        = ((st name pl).getD PState.init).losses := by
  have hdwl : determine_winners_losers g = ([], []) := by
    unfold determine_winners_losers
    rcases htie with he | hnp
    · by_cases hpres : teamPresent g "Red" = true ∧ teamPresent g "Blue" = true
      · rw [if_pos hpres]
        simp [he]
      · rw [if_neg hpres]
    · rw [if_neg hnp]
  refine ⟨hdwl, ?_⟩
  have hproc : (processGame cfg st g) name pl
      = some (stepPlayer cfg [] [] name ((st name pl).getD PState.init)) := by
    rw [processGame, hpl]
    simp only [hdwl]
    exact procPlayers_at_of_single cfg [] [] pl name hnd g.players st hocc
  rw [hproc]
  simp [stepPlayer]

/-- A concrete 1v1 tie: both players score 20. -/
def tieGame : Game :=
  { players := [⟨"alice", "Red", 20⟩, ⟨"bob", "Blue", 20⟩],
    playlist := some "MLG 4v4", startTime := "01", mapName := "Midship",
    gameType := "Slayer", variantName := "V", sourceFile := "01.xlsx" }

/-- C9 (witness): the tie frame property at a concrete drawn match over
the empty ledger. -/
theorem C9_tie_frame_witness :
    determine_winners_losers tieGame = ([], []) ∧
    (((processGame cfgC6 Ledger.empty tieGame) "alice" "MLG 4v4").getD PState.init).games
        = ((Ledger.empty "alice" "MLG 4v4").getD PState.init).games + 1 ∧
    (((processGame cfgC6 Ledger.empty tieGame) "alice" "MLG 4v4").getD PState.init).xp
        = ((Ledger.empty "alice" "MLG 4v4").getD PState.init).xp ∧
    (((processGame cfgC6 Ledger.empty tieGame) "alice" "MLG 4v4").getD PState.init).wins
        = ((Ledger.empty "alice" "MLG 4v4").getD PState.init).wins ∧
    (((processGame cfgC6 Ledger.empty tieGame) "alice" "MLG 4v4").getD PState.init).losses
        = ((Ledger.empty "alice" "MLG 4v4").getD PState.init).losses :=
  C9_tie_frame cfgC6 Ledger.empty tieGame "MLG 4v4" "alice" (by decide)
    (Or.inl (by decide)) (by decide) (by decide)

/-! ### Claim C8 -/

/-- The invariant carried through the ranked replay: every slot has
non-negative xp and a highest rank dominating its rank. -/
def LedgerInvariant (st : Ledger) : Prop :=
  ∀ n p : String, 0 ≤ (((st n p).getD PState.init).xp) ∧
    (((st n p).getD PState.init).rank) ≤ (((st n p).getD PState.init).highest)

/-- Helper: the win factor is non-negative when every table entry is. -/
theorem get_win_factor_nonneg (rank : ℕ) (wt : ℕ → Option ℚ)
    (hwf : ∀ r q, wt r = some q → 0 ≤ q) : 0 ≤ get_win_factor rank wt := by
  unfold get_win_factor
  split
  · norm_num
  · cases hq : wt rank with
    | none => simp only [hq, Option.getD_none]; norm_num
    | some q => simpa [hq] using hwf rank q hq

/-- Helper: truncation of a product of non-negatives is non-negative. -/
theorem applyFactor_nonneg (b : ℤ) (f : ℚ) (hb : 0 ≤ b) (hf : 0 ≤ f) :
    0 ≤ applyFactor b f :=
  Int.tdiv_nonneg (mul_nonneg hb (Rat.num_nonneg.mpr hf)) (Int.ofNat_nonneg _)

/-- Helper: one transition keeps xp non-negative (wins add a
non-negative delta, losses clamp at 0, ties change nothing). -/
theorem stepPlayer_xp_nonneg (cfg : XpConfig) (w l : List String) (n : String)
    (s : PState) (hw : 0 ≤ cfg.gameWin)
    (hwf : ∀ r q, cfg.winFactors r = some q → 0 ≤ q)
    (hxp : 0 ≤ s.xp) : 0 ≤ (stepPlayer cfg w l n s).xp := by
  unfold stepPlayer
  dsimp only
  split
  · dsimp only
    exact add_nonneg hxp
      (applyFactor_nonneg cfg.gameWin _ hw (get_win_factor_nonneg s.rank _ hwf))
  · split
    · dsimp only
      split <;> omega
    · dsimp only
      exact hxp

/-- Helper: one transition never lowers the highest rank. -/
theorem stepPlayer_highest_ge (cfg : XpConfig) (w l : List String) (n : String)
    (s : PState) : s.highest ≤ (stepPlayer cfg w l n s).highest := by
  unfold stepPlayer
  dsimp only
  split
  · dsimp only
    split <;> omega
  · split
    · dsimp only
      split <;> (try split) <;> omega
    · dsimp only
      split <;> omega

/-- Helper: immediately after a transition, highest dominates rank. -/
theorem stepPlayer_rank_le_highest (cfg : XpConfig) (w l : List String) (n : String)
    (s : PState) : (stepPlayer cfg w l n s).rank ≤ (stepPlayer cfg w l n s).highest := by
  unfold stepPlayer
  dsimp only
  split
  · dsimp only
    split <;> omega
  · split
    · dsimp only
      split <;> (try split) <;> omega
    · dsimp only
      split <;> omega

/-- Helper: invariant preservation through any fold. -/
theorem foldl_preserve {α β : Type} {f : β → α → β} {P : β → Prop}
    (h : ∀ b a, P b → P (f b a)) : ∀ (l : List α) (b : β), P b → P (l.foldl f b) := by
  intro l
  induction l with
  | nil => intro b hb; exact hb
  | cons a rest ih => intro b hb; exact ih (f b a) (h b a hb)

/-- Helper: the player fold preserves the ledger invariant. -/
theorem procPlayers_invariant (cfg : XpConfig) (w l : List String) (pl : String)
    (ps : List Player) (st : Ledger) (hw : 0 ≤ cfg.gameWin)
    (hwf : ∀ r q, cfg.winFactors r = some q → 0 ≤ q)
    (hst : LedgerInvariant st) : LedgerInvariant (procPlayers cfg w l pl ps st) := by
  refine foldl_preserve ?_ ps st hst
  intro b p hb
  by_cases hd : is_dedicated_server p.name
  · simpa [hd] using hb
  · intro n q
    simp only [hd, Bool.false_eq_true, if_false, Ledger.update]
    by_cases he : n = p.name ∧ q = pl
    · rw [if_pos he]
      refine ⟨?_, stepPlayer_rank_le_highest cfg w l p.name _⟩
      exact stepPlayer_xp_nonneg cfg w l p.name _ hw hwf (hb p.name pl).1
    · rw [if_neg he]
      exact hb n q

/-- Helper: one processed game preserves the ledger invariant. -/
theorem processGame_invariant (cfg : XpConfig) (g : Game) (st : Ledger)
    (hw : 0 ≤ cfg.gameWin) (hwf : ∀ r q, cfg.winFactors r = some q → 0 ≤ q)
    (hst : LedgerInvariant st) : LedgerInvariant (processGame cfg st g) := by
  unfold processGame
  cases g.playlist with
  | none => exact hst
  | some pl => exact procPlayers_invariant cfg _ _ pl g.players st hw hwf hst

/-- Helper: a replay from any invariant state keeps the invariant. -/
theorem replay_invariant (cfg : XpConfig) (gs : List Game) (st : Ledger)
    (hw : 0 ≤ cfg.gameWin) (hwf : ∀ r q, cfg.winFactors r = some q → 0 ≤ q)
    (hst : LedgerInvariant st) : LedgerInvariant (replay cfg st gs) :=
  foldl_preserve (fun b a hb => processGame_invariant cfg a b hw hwf hb) gs st hst

/-- The highest rank recorded at one slot. -/
def slotHighest (st : Ledger) (n p : String) : ℕ := ((st n p).getD PState.init).highest

/-- Helper: the player fold never lowers any slot's highest rank. -/
theorem procPlayers_highest_mono (cfg : XpConfig) (w l : List String) (pl : String)
    (ps : List Player) (st : Ledger) (n q : String) :
    slotHighest st n q ≤ slotHighest (procPlayers cfg w l pl ps st) n q := by
  have key : ∀ (b : Ledger) (p : Player),
      slotHighest b n q ≤ slotHighest
        (if is_dedicated_server p.name then b
         else b.update p.name pl (stepPlayer cfg w l p.name ((b p.name pl).getD PState.init))) n q := by
    intro b p
    by_cases hd : is_dedicated_server p.name
    · simp [hd]
    · simp only [hd, Bool.false_eq_true, if_false]
      unfold slotHighest Ledger.update
      by_cases he : n = p.name ∧ q = pl
      · rw [if_pos he]
        obtain ⟨he1, he2⟩ := he
        rw [he1, he2]
        simpa using stepPlayer_highest_ge cfg w l p.name ((b p.name pl).getD PState.init)
      · rw [if_neg he]
  show slotHighest st n q ≤ slotHighest (ps.foldl _ st) n q
  induction ps generalizing st with
  | nil => exact le_refl _
  | cons p rest ih => exact le_trans (key st p) (ih _)

/-- Helper: one processed game never lowers any slot's highest rank. -/
theorem processGame_highest_mono (cfg : XpConfig) (g : Game) (st : Ledger) (n q : String) :
    slotHighest st n q ≤ slotHighest (processGame cfg st g) n q := by
  unfold processGame
  cases g.playlist with
  | none => exact le_refl _
  | some pl => exact procPlayers_highest_mono cfg _ _ pl g.players st n q

/-- C8: along the chronological ranked replay, after every transition
each (player, playlist) slot has xp ≥ 0, its highest rank never
decreases from one match to the next, and the highest rank dominates
the rank just computed. -/
theorem C8_ledger_invariants (cfg : XpConfig)
    (hw : 0 ≤ cfg.gameWin)
    (hwf : ∀ r q, cfg.winFactors r = some q → 0 ≤ q)
    (gs : List Game) (g : Game) (name pl : String) :
    0 ≤ (((replay cfg Ledger.empty (gs ++ [g])) name pl).getD PState.init).xp ∧
    (((replay cfg Ledger.empty gs) name pl).getD PState.init).highest
      ≤ (((replay cfg Ledger.empty (gs ++ [g])) name pl).getD PState.init).highest ∧
    (((replay cfg Ledger.empty (gs ++ [g])) name pl).getD PState.init).rank
      ≤ (((replay cfg Ledger.empty (gs ++ [g])) name pl).getD PState.init).highest := by
  have hinit : LedgerInvariant Ledger.empty := by
    intro n p
    simp [Ledger.empty, PState.init]
  have hinv := replay_invariant cfg (gs ++ [g]) Ledger.empty hw hwf hinit
  have hsplit : replay cfg Ledger.empty (gs ++ [g])
      = processGame cfg (replay cfg Ledger.empty gs) g := by
    simp [replay, List.foldl_append]
  refine ⟨(hinv name pl).1, ?_, (hinv name pl).2⟩
  rw [hsplit]
  exact processGame_highest_mono cfg g (replay cfg Ledger.empty gs) name pl

/-- The C8 witness configuration: +100 and -100 base XP, empty factor
tables, a two-level rank table. -/
def cfgC8 : XpConfig :=
  { gameWin := 100, gameLoss := -100, winFactors := fun _ => none,
    lossFactors := fun _ => none,
    rankThresholds := fun r =>
      if r = 1 then some (0, 99) else if r = 2 then some (100, 1000000) else none }

/-- C8 (witness): the invariants at a concrete one-win replay. -/
theorem C8_ledger_invariants_witness :
    (0 : ℤ) ≤ cfgC8.gameWin ∧
    (0 ≤ (((replay cfgC8 Ledger.empty ([] ++ [seriesGameA "01"])) "a1" "MLG 4v4").getD PState.init).xp ∧
     (((replay cfgC8 Ledger.empty []) "a1" "MLG 4v4").getD PState.init).highest
       ≤ (((replay cfgC8 Ledger.empty ([] ++ [seriesGameA "01"])) "a1" "MLG 4v4").getD PState.init).highest ∧
     (((replay cfgC8 Ledger.empty ([] ++ [seriesGameA "01"])) "a1" "MLG 4v4").getD PState.init).rank
       ≤ (((replay cfgC8 Ledger.empty ([] ++ [seriesGameA "01"])) "a1" "MLG 4v4").getD PState.init).highest) :=
  ⟨by decide, C8_ledger_invariants cfgC8 (by decide) (fun r q h => by simp [cfgC8] at h)
    [] (seriesGameA "01") "a1" "MLG 4v4"⟩

/-! ### Claim C1 -/

/-- The C1 scenario configuration: +100 and -100 base XP, empty factor
tables, two rank levels. -/
def cfgC1 : XpConfig :=
  { gameWin := 100, gameLoss := -100, winFactors := fun _ => none,
    lossFactors := fun _ => none,
    rankThresholds := fun r =>
      if r = 1 then some (0, 99) else if r = 2 then some (100, 1000000) else none }

/-- Match 1 of the C1 scenario: `alice` (an alias of user U) beats
`bob`. -/
def gameC1a : Game :=
  { players := [⟨"alice", "Red", 25⟩, ⟨"bob", "Blue", 20⟩],
    playlist := some "MLG 4v4", startTime := "01", mapName := "Midship",
    gameType := "Slayer", variantName := "V", sourceFile := "01.xlsx" }

/-- Match 2 of the C1 scenario: `alicia` (the other alias of user U)
beats `bob`. -/
def gameC1b : Game :=
  { players := [⟨"alicia", "Red", 25⟩, ⟨"bob", "Blue", 20⟩],
    playlist := some "MLG 4v4", startTime := "02", mapName := "Midship",
    gameType := "Slayer", variantName := "V", sourceFile := "02.xlsx" }

/-- The identity resolution of the C1 scenario: both `alice` and
`alicia` resolve (deterministically, e.g. via their MAC addresses) to
the same user U; every other name is its own identity. -/
def p2idC1 : String → String :=
  fun n => if n = "alice" ∨ n = "alicia" then "U" else n

/-- C1: the code violates the claimed full-vs-incremental equivalence.
With checkpoint prefix k = 1 and no retroactive tag changes, the clean
full replay completes and gives user U the consolidated state xp 200,
2 wins, 2 games — but the incremental run crashes: alice's checkpointed
state makes her saved `playlists` dict non-empty, her name was skipped
by the already-resolved `continue` and so has no `player_playlist_xp`
entry, and the restore loop raises an uncaught `KeyError`
(populate_stats.py line 1444), producing no output at all. -/
theorem C1_full_vs_incremental_divergence :
    fullRunConso cfgC1 [gameC1a, gameC1b] p2idC1 "U" "MLG 4v4"
      = some ⟨200, 2, 2, 2, 0, 2⟩ ∧
    incRunConso cfgC1 [gameC1a, gameC1b] 1 p2idC1 "U" "MLG 4v4"
      = RunResult.crashed := by
  refine ⟨by decide, by decide⟩

/-- A match with three teams: Red (30), Blue (20) and Green (50). -/
def threeTeamGame : Game :=
  { players := [⟨"r1", "Red", 30⟩, ⟨"b1", "Blue", 20⟩, ⟨"g1", "Green", 50⟩],
    playlist := some "MLG 4v4", startTime := "01", mapName := "Midship",
    gameType := "Slayer", variantName := "V", sourceFile := "01.xlsx" }

/-- C9 (counterexample to the claim as stated): a match with more than
two teams is not treated as a tie — `determine_winners_losers` counts
only the Red and Blue teams, so with a Green team present and unequal
Red/Blue totals it still returns the Red roster as winners and the Blue
roster as losers, not empty rosters. -/
theorem C9_counterexample :
    determine_winners_losers threeTeamGame = (["r1"], ["b1"]) ∧
    determine_winners_losers threeTeamGame ≠ ([], []) := by
  refine ⟨by decide, by decide⟩
